import Mathlib

set_option maxRecDepth 8000

/-!
Shallow embedding of the trustworthy-model-registry service
(FastAPI + SQLAlchemy repository) and proofs about its natural-language
specification.  Python dictionaries of rational scores are modelled with
`Option ℚ` fields (absent key = `none`), Python `dict.get(k, d)` with
`Option.getD`, Python float arithmetic with exact rationals, and
`round(x, 3)` with round-half-to-even at the third decimal.
-/

/-- Round-half-to-even of a rational to an integer, as Python's `round`. -/
def roundHalfEven (q : ℚ) : ℤ :=
  let f := ⌊q⌋
  let r := q - (f : ℚ)
  if r < 1/2 then f
  else if 1/2 < r then f + 1
  else if f % 2 = 0 then f else f + 1

/-- Python's `round(q, 3)`. -/
def round3 (q : ℚ) : ℚ := (roundHalfEven (q * 1000) : ℚ) / 1000

/-- A metrics document as passed around `src/api/services/metrics.py`:
each sub-score key may be absent (`none`); `size_score` is a JSON
sub-document whose values we keep as a list; `reviewedness` uses the
sentinel `-1` for "not applicable". -/
structure MetricsDoc where
  ramp_up_time : Option ℚ
  bus_factor : Option ℚ
  license : Option ℚ
  performance_claims : Option ℚ
  dataset_and_code_score : Option ℚ
  dataset_quality : Option ℚ
  code_quality : Option ℚ
  size_score : Option (List ℚ)
  reproducibility : Option ℚ
  reviewedness : Option ℚ
  net_score : Option ℚ

/-- The `WEIGHTS` table of `metrics.py`. -/
def WEIGHTS : String → ℚ
  | "ramp_up_time" => 12/100
  | "bus_factor" => 12/100
  | "license" => 12/100
  | "performance_claims" => 12/100
  | "dataset_and_code_score" => 10/100
  | "dataset_quality" => 10/100
  | "code_quality" => 10/100
  | "size_score" => 10/100
  | "reproducibility" => 6/100
  | "reviewedness" => 6/100
  | _ => 0

/-- `compute_net_score` from `src/api/services/metrics.py`.
`metrics.get("size_score", {})` is modelled by `Option.getD` with the
empty value list; the truthiness test `if isinstance(...) and size_score`
becomes the non-emptiness test. -/
def compute_net_score (metrics : MetricsDoc) : ℚ :=
  let size_vals : List ℚ := metrics.size_score.getD []
  let size_avg : ℚ :=
    if size_vals ≠ [] then size_vals.sum / (size_vals.length : ℚ) else 1/2
  let always_available : List (String × ℚ) :=
    [("ramp_up_time", metrics.ramp_up_time.getD 0),
     ("bus_factor", metrics.bus_factor.getD 0),
     ("license", metrics.license.getD 0),
     ("performance_claims", metrics.performance_claims.getD 0),
     ("dataset_and_code_score", metrics.dataset_and_code_score.getD 0),
     ("dataset_quality", metrics.dataset_quality.getD 0),
     ("code_quality", metrics.code_quality.getD 0),
     ("size_score", size_avg),
     ("reproducibility", metrics.reproducibility.getD 0)]
  let weighted_sum : ℚ := (always_available.map (fun kv => WEIGHTS kv.1 * kv.2)).sum
  let total_weight : ℚ := (always_available.map (fun kv => WEIGHTS kv.1)).sum
  let reviewedness : ℚ := metrics.reviewedness.getD (-1)
  let weighted_sum : ℚ :=
    if reviewedness ≥ 0 then weighted_sum + WEIGHTS "reviewedness" * reviewedness
    else weighted_sum
  let total_weight : ℚ :=
    if reviewedness ≥ 0 then total_weight + WEIGHTS "reviewedness" else total_weight
  let score := if total_weight > 0 then weighted_sum / total_weight else 0
  round3 score

/-- The net score as the specification words it: a weighted mean over the
nine always-included dimensions (size-score entering as the arithmetic
mean of its values, 0.5 when the size-score document is empty), with
reviewedness (weight 0.06) included in numerator and denominator only
when its value is ≥ 0, and the quotient rounded to 3 decimals. -/
def net_score_spec (m : MetricsDoc) : ℚ :=
  let sizeVals : List ℚ := m.size_score.getD []
  let sizeAvg : ℚ :=
    if sizeVals = [] then 1/2 else sizeVals.sum / (sizeVals.length : ℚ)
  let num : ℚ :=
    (12/100) * m.ramp_up_time.getD 0 + (12/100) * m.bus_factor.getD 0 +
    (12/100) * m.license.getD 0 + (12/100) * m.performance_claims.getD 0 +
    (10/100) * m.dataset_and_code_score.getD 0 + (10/100) * m.dataset_quality.getD 0 +
    (10/100) * m.code_quality.getD 0 + (10/100) * sizeAvg +
    (6/100) * m.reproducibility.getD 0
  let r : ℚ := m.reviewedness.getD (-1)
  if 0 ≤ r then round3 ((num + (6/100) * r) / (94/100 + 6/100))
  else round3 (num / (94/100))

/-- A metrics document with every sub-score (all size components) and
reviewedness equal to 1. -/
def allOnesDoc : MetricsDoc :=
  ⟨some 1, some 1, some 1, some 1, some 1, some 1, some 1,
   some [1, 1, 1, 1], some 1, some 1, some 1⟩

/-- A metrics document with every sub-score equal to 0.5 and
reviewedness equal to the -1 sentinel. -/
def allHalvesDoc : MetricsDoc :=
  ⟨some (1/2), some (1/2), some (1/2), some (1/2), some (1/2), some (1/2),
   some (1/2), some [1/2, 1/2, 1/2, 1/2], some (1/2), some (-1), some (1/2)⟩

/-- `passes_quality_threshold` from `metrics.py`: reject exactly when
`metrics.get("net_score", 0)` is below 0.1. -/
def passes_quality_threshold (metrics : MetricsDoc) : Bool :=
  let net_score := metrics.net_score.getD 0
  if net_score < 1/10 then false else true

/-- The response the original `/ingest` route returns when the quality
gate rejects a model: the route has no `status_code` override (HTTP 200),
`success=False`, no artifact and no rating attached. -/
structure IngestRejection where
  status : ℕ
  success : Bool
  artifact? : Option Unit
  rating? : Option Unit
deriving DecidableEq

/-- The quality-gate branch of `ingest_artifact` in
`src/api/routes/ingest.py`: `some` rejection response when the gate
fails, `none` when ingest proceeds. -/
def ingest_model_quality_gate (metrics : MetricsDoc) : Option IngestRejection :=
  if passes_quality_threshold metrics = false then some ⟨200, false, none, none⟩
  else none

/-- A metrics document carrying only a computed net score. -/
def docWithNetScore (q : ℚ) : MetricsDoc :=
  ⟨none, none, none, none, none, none, none, none, none, none, some q⟩

/-- `compute_treescore` from `metrics.py`: `parents` is the id list from
`crud.get_parents`, `latest` models `crud.get_latest_rating` returning the
most recent rating's `net_score` when the parent has any rating. -/
def compute_treescore (parents : List String) (latest : String → Option ℚ) : ℚ :=
  if parents = [] then 0
  else
    let parent_scores : List ℚ := parents.filterMap latest
    if parent_scores = [] then 0
    else round3 (parent_scores.sum / (parent_scores.length : ℚ))

/-- Latest-rating lookup with parent A rated 0.8 and parent B rated 0.6. -/
def exLatestBoth : String → Option ℚ :=
  fun p => if p = "A" then some (8/10) else if p = "B" then some (6/10) else none

/-- Latest-rating lookup with parent A rated 0.8 and no rating for B. -/
def exLatestOnlyA : String → Option ℚ :=
  fun p => if p = "A" then some (8/10) else none

/-- The `config_files` list inside `compute_reproducibility`. -/
def config_files : List String :=
  ["config.json", "tokenizer_config.json", "generation_config.json"]

/-- `compute_reproducibility` from `metrics.py`: `siblings` is the file
manifest (each sibling's `rfilename`), `training_declared` models
`card_data.get("training_data") or card_data.get("training_procedure")`
being truthy. -/
def compute_reproducibility (siblings : List String) (training_declared : Bool) : ℚ :=
  let indicators : ℕ :=
    (siblings.filter (fun filename => filename ∈ config_files)).length
      + (if training_declared then 2 else 0)
  if 3 ≤ indicators then 1 else if 1 ≤ indicators then 1/2 else 0

/-- The indicator count as the specification words it: one indicator for
each of the three config files present in the manifest, plus two when the
card declares training data or a training procedure. -/
def reproducibility_indicators_spec (siblings : List String) (training_declared : Bool) : ℕ :=
  (config_files.filter (fun f => f ∈ siblings)).length
    + (if training_declared then 2 else 0)

/-- `crud.get_parents`: the `lineage_edges` rows with `child_id =
artifact_id` give the parent ids, then the artifacts table is queried for
rows whose id is among them (each table row at most once, in table
order).  `arts` is the id column of the artifacts table, `edges` the
`(parent_id, child_id)` rows. -/
def get_parents (arts : List String) (edges : List (String × String))
    (artifact_id : String) : List String :=
  let parent_ids := (edges.filter (fun e => e.2 = artifact_id)).map (fun e => e.1)
  arts.filter (fun a => a ∈ parent_ids)

/-- `crud.get_all_dependencies` with the shared mutable `visited` set
threaded through explicitly (Python mutates one set across the sibling
recursive calls) and structural fuel standing in for Python's unbounded
recursion; any fuel larger than the number of artifacts reproduces the
Python call tree, which the visited set keeps finite.  Returns the
accumulated `all_deps` list and the final visited set. -/
def get_all_dependencies_go (arts : List String) (edges : List (String × String)) :
    ℕ → String → List String → List String × List String
  | 0, _, visited => ([], visited)
  | fuel + 1, artifact_id, visited =>
    if artifact_id ∈ visited then ([], visited)
    else
      let visited1 := artifact_id :: visited
      let parents := get_parents arts edges artifact_id
      parents.foldl
        (fun acc p =>
          let r := get_all_dependencies_go arts edges fuel p acc.2
          (acc.1 ++ r.1, r.2))
        (parents, visited1)

/-- `crud.get_all_dependencies(db, artifact_id)` (top-level call with an
empty visited set). -/
def get_all_dependencies (arts : List String) (edges : List (String × String))
    (artifact_id : String) : List String :=
  (get_all_dependencies_go arts edges (arts.length + 1) artifact_id []).1

/-- The artifacts of the diamond lineage graph of the claim. -/
def diamondArts : List String := ["A", "B", "C", "D"]

/-- The diamond edges: D has parents B and C, and both have parent A. -/
def diamondEdges : List (String × String) :=
  [("B", "D"), ("C", "D"), ("A", "B"), ("A", "C")]

/-- The columns declared on the `Rating` ORM model in
`src/api/db/models.py` — the only attributes a Rating row has. -/
def ratingColumns : List String :=
  ["id", "artifact_id",
   "net_score", "ramp_up_time", "bus_factor", "license", "performance_claims",
   "dataset_and_code_score", "dataset_quality", "code_quality",
   "size_score",
   "reproducibility", "reviewedness", "treescore",
   "net_score_latency", "ramp_up_time_latency", "bus_factor_latency",
   "license_latency", "performance_claims_latency",
   "dataset_and_code_score_latency", "dataset_quality_latency",
   "code_quality_latency",
   "created_at"]

/-- The attribute names `get_model_rating_spec` in
`src/api/routes/rating.py` reads from the Rating row while building the
`ModelRating` response, in source order. -/
def model_rating_attr_reads : List String :=
  ["net_score", "net_score_latency",
   "ramp_up_time", "ramp_up_time_latency",
   "bus_factor", "bus_factor_latency",
   "performance_claims", "performance_claims_latency",
   "license", "license_latency",
   "dataset_and_code_score", "dataset_and_code_score_latency",
   "dataset_quality", "dataset_quality_latency",
   "code_quality", "code_quality_latency",
   "reproducibility", "reproducibility_latency",
   "reviewedness", "reviewedness_latency",
   "treescore", "tree_score_latency",
   "size_score", "size_score_latency"]

/-- A SQLAlchemy ORM row as Python sees it: attribute access returns the
stored value for each declared column and raises `AttributeError`
(modelled as `none`) for every other name.  `schemaRow v` is a Rating
instance whose attributes are exactly `ratingColumns` with stored values
`v`. -/
def schemaRow (v : String → ℚ) : String → Option ℚ :=
  fun n => if n ∈ ratingColumns then some (v n) else none

/-- HTTP outcome of a route handler; an uncaught Python exception is
answered by the app-wide handler as a sanitized HTTP 500. -/
inductive HttpOutcome
  | ok200
  | notFound404
  | serverError500
deriving DecidableEq

/-- `GET /artifact/model/{id}/rate` (`get_model_rating_spec` in
`rating.py`): 404 when the model-type artifact lookup fails, 404 when it
has no rating, otherwise the handler builds the `ModelRating` by reading
`model_rating_attr_reads` off the rating row; reading an undeclared
attribute raises `AttributeError`, which surfaces as HTTP 500. -/
def get_model_rating_spec (artifact : Option String)
    (rating : Option (String → Option ℚ)) : HttpOutcome :=
  match artifact with
  | none => .notFound404
  | some _ =>
    match rating with
    | none => .notFound404
    | some row =>
      if model_rating_attr_reads.all (fun n => (row n).isSome) then .ok200
      else .serverError500

/-- Python's `str.rstrip(chars)`: removes the longest trailing run of
characters drawn from `chars` (a character set, not a suffix). -/
def pyRstrip (s : List Char) (chars : List Char) : List Char :=
  (s.reverse.dropWhile (fun c => c ∈ chars)).reverse

/-- One attempted match of `github\.com SEP ([^/]+)/([^/]+)` at the head
of `s` (greedy groups, as Python `re`). -/
def ghHere (sep : Char) (s : List Char) : Option (List Char × List Char) :=
  let pre := "github.com".toList ++ [sep]
  if pre.isPrefixOf s then
    let rest := s.drop pre.length
    let g1 := rest.takeWhile (fun c => c ≠ '/')
    if g1 = [] then none
    else
      match rest.drop g1.length with
      | '/' :: rest3 =>
        let g2 := rest3.takeWhile (fun c => c ≠ '/')
        if g2 = [] then none else some (g1, g2)
      | _ => none
  else none

/-- `re.search` of the pattern above: leftmost matching position. -/
def ghSearch (sep : Char) : List Char → Option (List Char × List Char)
  | [] => none
  | c :: rest =>
    match ghHere sep (c :: rest) with
    | some g => some g
    | none => ghSearch sep rest

/-- `extract_repo_info` from `src/api/services/github.py`: try the HTTPS
pattern then the SSH-style pattern, and post-process the repo group with
`repo.rstrip(".git").rstrip("/")`. -/
def extract_repo_info (url : String) : Option (String × String) :=
  match ghSearch '/' url.toList with
  | some (o, r) =>
    some (String.mk o, String.mk (pyRstrip (pyRstrip r ".git".toList) "/".toList))
  | none =>
    match ghSearch ':' url.toList with
    | some (o, r) =>
      some (String.mk o, String.mk (pyRstrip (pyRstrip r ".git".toList) "/".toList))
    | none => none

/-- The `mappings` dictionary inside `normalize_license` in
`src/api/services/license.py`. -/
def license_mappings : List (String × String) :=
  [("mit license", "mit"),
   ("mit", "mit"),
   ("expat", "mit"),
   ("apache 2.0", "apache-2.0"),
   ("apache-2.0", "apache-2.0"),
   ("apache license 2.0", "apache-2.0"),
   ("apache license, version 2.0", "apache-2.0"),
   ("bsd-2-clause", "bsd-2-clause"),
   ("bsd 2-clause", "bsd-2-clause"),
   ("simplified bsd", "bsd-2-clause"),
   ("bsd-3-clause", "bsd-3-clause"),
   ("bsd 3-clause", "bsd-3-clause"),
   ("new bsd", "bsd-3-clause"),
   ("modified bsd", "bsd-3-clause"),
   ("gpl-2.0", "gpl-2.0"),
   ("gpl 2.0", "gpl-2.0"),
   ("gnu gpl v2", "gpl-2.0"),
   ("gpl-3.0", "gpl-3.0"),
   ("gpl 3.0", "gpl-3.0"),
   ("gnu gpl v3", "gpl-3.0"),
   ("gnu general public license v3.0", "gpl-3.0"),
   ("agpl-3.0", "agpl-3.0"),
   ("gnu agpl v3", "agpl-3.0"),
   ("lgpl-2.1", "lgpl-2.1"),
   ("gnu lgpl v2.1", "lgpl-2.1"),
   ("lgpl-3.0", "lgpl-3.0"),
   ("gnu lgpl v3", "lgpl-3.0"),
   ("unlicense", "unlicense"),
   ("public domain", "unlicense"),
   ("cc0-1.0", "cc0-1.0"),
   ("cc0 1.0", "cc0-1.0"),
   ("cc-by-4.0", "cc-by-4.0"),
   ("cc by 4.0", "cc-by-4.0"),
   ("cc-by-sa-4.0", "cc-by-sa-4.0"),
   ("cc by-sa 4.0", "cc-by-sa-4.0"),
   ("isc", "isc"),
   ("isc license", "isc"),
   ("mpl-2.0", "mpl-2.0"),
   ("mozilla public license 2.0", "mpl-2.0")]

/-- Python's `str.lower().strip()` for the ASCII license identifiers:
lowercase every character, then drop leading and trailing whitespace. -/
def pyLowerStrip (s : String) : String :=
  let lowered := s.toList.map Char.toLower
  String.mk
    (((lowered.dropWhile Char.isWhitespace).reverse.dropWhile Char.isWhitespace).reverse)

/-- `normalize_license`: `None`/empty input maps to `None`; otherwise the
lowercased, stripped string is looked up in `license_mappings`, defaulting
to itself (an unrecognized identifier is returned as-is, not `None`). -/
def normalize_license (license_str : Option String) : Option String :=
  match license_str with
  | none => none
  | some s =>
    if s = "" then none
    else
      some ((license_mappings.lookup (pyLowerStrip s)).getD (pyLowerStrip s))

/-- The `LICENSE_COMPATIBILITY` table of `license.py` (license to the set
of licenses it is compatible with). -/
def LICENSE_COMPATIBILITY : List (String × List String) :=
  [("mit", ["mit", "apache-2.0", "bsd-2-clause", "bsd-3-clause", "isc", "unlicense", "cc0-1.0"]),
   ("apache-2.0", ["mit", "apache-2.0", "bsd-2-clause", "bsd-3-clause", "isc", "unlicense"]),
   ("bsd-2-clause", ["mit", "apache-2.0", "bsd-2-clause", "bsd-3-clause", "isc", "unlicense"]),
   ("bsd-3-clause", ["mit", "apache-2.0", "bsd-2-clause", "bsd-3-clause", "isc", "unlicense"]),
   ("isc", ["mit", "apache-2.0", "bsd-2-clause", "bsd-3-clause", "isc", "unlicense"]),
   ("unlicense", ["mit", "apache-2.0", "bsd-2-clause", "bsd-3-clause", "isc", "unlicense", "cc0-1.0"]),
   ("cc0-1.0", ["mit", "apache-2.0", "bsd-2-clause", "bsd-3-clause", "isc", "unlicense", "cc0-1.0"]),
   ("gpl-2.0", ["gpl-2.0", "gpl-3.0"]),
   ("gpl-3.0", ["gpl-3.0"]),
   ("agpl-3.0", ["agpl-3.0"]),
   ("lgpl-2.1", ["lgpl-2.1", "lgpl-3.0", "gpl-2.0", "gpl-3.0"]),
   ("lgpl-3.0", ["lgpl-3.0", "gpl-3.0"]),
   ("cc-by-4.0", ["cc-by-4.0", "cc-by-sa-4.0"]),
   ("cc-by-sa-4.0", ["cc-by-sa-4.0"])]

/-- Python truthiness of the normalized value (`if not norm_artifact`):
falsy when absent or the empty string. -/
def isFalsyStr : Option String -> Bool
  | none => true
  | some s => s = ""

/-- `check_compatibility` from `license.py`: unknown message when either
normalized license is falsy, identical normalized licenses always match,
otherwise the static table is consulted in both directions. -/
def check_compatibility (artifact_license target_license : Option String) :
    Bool × String :=
  let norm_artifact := normalize_license artifact_license
  let norm_target := normalize_license target_license
  if isFalsyStr norm_artifact then (false, "Artifact license unknown")
  else if isFalsyStr norm_target then (false, "Target license unknown")
  else
    let na := norm_artifact.getD ""
    let nt := norm_target.getD ""
    if na = nt then (true, "Licenses match: " ++ na)
    else
      let compatible_set := (LICENSE_COMPATIBILITY.lookup na).getD []
      if nt ∈ compatible_set then (true, na ++ " is compatible with " ++ nt)
      else
        let reverse_compatible := (LICENSE_COMPATIBILITY.lookup nt).getD []
        if na ∈ reverse_compatible then (true, nt ++ " is compatible with " ++ na)
        else (false, na ++ " may not be compatible with " ++ nt)

/-- Quantifier of a character-class item in the tiny regex fragment the
ReDoS guard's own patterns use. -/
inductive RQuant
  | one
  | plus
  | star

/-- One item of a guard pattern: a literal character or a quantified
character class (all the guard's patterns are concatenations of these). -/
inductive RItem
  | lit (c : Char)
  | cls (p : Char → Bool) (q : RQuant)

/-- Does the item sequence match a prefix of `s`?  Classes consume one
character per iteration, so a `+`/`*` match consuming k characters means
the first k characters satisfy the class; all split points up to the
maximal run are tried, as a backtracking engine does. -/
def matchesHere : List RItem → List Char → Bool
  | [], _ => true
  | .lit c :: rest, s =>
    match s with
    | [] => false
    | x :: xs => x = c && matchesHere rest xs
  | .cls p q :: rest, s =>
    match q with
    | .one =>
      match s with
      | [] => false
      | x :: xs => p x && matchesHere rest xs
    | .plus =>
      (List.range (s.takeWhile p).length).any (fun k => matchesHere rest (s.drop (k + 1)))
    | .star =>
      (List.range ((s.takeWhile p).length + 1)).any (fun k => matchesHere rest (s.drop k))

/-- `re.search` of a guard pattern: does it match at any position? -/
def searchRe (items : List RItem) (s : List Char) : Bool :=
  s.tails.any (fun t => matchesHere items t)

/-- The class `[^)]`. -/
def notRP : Char → Bool := fun c => !(c = ')')

/-- The `dangerous_patterns` list of `is_safe_regex` in
`src/api/routes/search.py`, pattern by pattern, in source order. -/
def dangerous_patterns : List (List RItem) :=
  [[.lit '(', .lit '.', .lit '*', .lit ')', .lit '+'],
   [.lit '(', .lit '.', .lit '+', .lit ')', .lit '+'],
   [.lit '(', .lit '.', .lit '*', .lit ')', .lit '*'],
   [.lit '(', .lit '.', .lit '+', .lit ')', .lit '*'],
   [.lit '(', .cls notRP .plus, .lit '+', .lit ')', .lit '+'],
   [.lit '(', .cls notRP .plus, .lit '*', .lit ')', .lit '+'],
   [.lit '(', .cls notRP .plus, .lit '+', .lit ')', .lit '*'],
   [.lit '(', .cls notRP .plus, .lit '*', .lit ')', .lit '*'],
   [.lit '(', .cls notRP .plus, .lit ')', .lit '\x7b', .cls Char.isDigit .plus, .lit ','],
   [.lit '(', .cls notRP .star, .lit '|', .cls notRP .star, .lit ')', .lit '*'],
   [.lit '(', .cls notRP .star, .lit '|', .cls notRP .star, .lit ')', .lit '+'],
   [.lit '(', .cls notRP .star, .lit '|', .cls notRP .star, .lit ')', .lit '\x7b']]

/-- The lookaround check `\(\?[^:)]`. -/
def lookaround_items : List RItem :=
  [.lit '(', .lit '?', .cls (fun c => !(c = ':') && !(c = ')')) .one]

/-- Numeric value of a run of digit characters. -/
def digitsToNat (ds : List Char) : ℕ :=
  ds.foldl (fun a c => a * 10 + (c.toNat - 48)) 0

/-- One attempted match of the repetition-bound scan pattern
`\{(\d+),?(\d*)\}` at the head of the list: brace, a nonempty digit
run (greedy), an optional comma, a digit run, closing brace.  Returns the
two captured bounds. -/
def parseRepBound : List Char → Option (ℕ × Option ℕ)
  | '\x7b' :: rest =>
    let ds := rest.takeWhile Char.isDigit
    if ds = [] then none
    else
      match rest.drop ds.length with
      | ',' :: rest3 =>
        let ds2 := rest3.takeWhile Char.isDigit
        (match rest3.drop ds2.length with
         | '\x7d' :: _ =>
           some (digitsToNat ds, if ds2 = [] then none else some (digitsToNat ds2))
         | _ => none)
      | '\x7d' :: _ => some (digitsToNat ds, none)
      | _ => none
  | _ => none

/-- The `re.finditer` loop of `is_safe_regex`: some `{m}`/`{m,}`/`{m,n}`
occurrence has `m > 50`, or a present `n > 50`. -/
def repBoundsUnsafe (pattern : List Char) : Bool :=
  pattern.tails.any (fun t =>
    match parseRepBound t with
    | some (st, en) =>
      50 < st || (match en with | some e => 50 < e | none => false)
    | none => false)

/-- `is_safe_regex` from `src/api/routes/search.py`: reject patterns
longer than 200 characters, any dangerous-pattern hit, any repetition
bound above 50, more than three opening parentheses, and lookarounds. -/
def is_safe_regex (pattern : String) : Bool :=
  let p := pattern.toList
  if 200 < p.length then false
  else if dangerous_patterns.any (fun d => searchRe d p) then false
  else if repBoundsUnsafe p then false
  else if 3 < (p.filter (fun c => c = '(')).length then false
  else if searchRe lookaround_items p then false
  else true

/-- `re.compile(query, re.IGNORECASE).search(name)` for the literal
(metacharacter-free) patterns the accepted-side of the claim is about:
case-insensitive substring search. -/
def re_search_ci_literal (query hay : List Char) : Bool :=
  ((hay.map Char.toLower).tails).any
    (fun t => (query.map Char.toLower).isPrefixOf t)

/-- A row of the artifacts table as the search routes consume it
(`metadata_json` flattened to a presence flag plus its `description` and
`readme` fields). -/
structure ArtifactRec where
  id : String
  name : String
  artifact_type : String
  created_at : ℕ
  hasMetadata : Bool
  description : String
  readme : String
deriving DecidableEq

/-- `crud.list_artifacts`: optional type filter, order by `created_at`
descending, offset, limit. -/
def list_artifacts (db : List ArtifactRec) (artifact_type : Option String)
    (limit offset : ℕ) : List ArtifactRec :=
  let query : List ArtifactRec :=
    match artifact_type with
    | some t => db.filter (fun a => a.artifact_type = t)
    | none => db
  ((query.mergeSort (fun a b => decide (b.created_at ≤ a.created_at))).drop offset).take limit

/-- Outcome of `GET /artifacts/search`. -/
inductive SearchOutcome
  | badRequest400
  | ok200 (results : List ArtifactRec) (total : ℕ)
deriving DecidableEq

/-- `GET /artifacts/search` (`search_artifacts` in `search.py`): 400 when
the guard rejects the pattern, before any matching; otherwise the pattern
is evaluated against `list_artifacts(db, type, limit=1000)`, all matches
are counted for `total`, and the result list is truncated to `limit`. -/
def search_artifacts (db : List ArtifactRec) (query : String)
    (artifact_type : Option String) (limit : ℕ) : SearchOutcome :=
  if is_safe_regex query = false then .badRequest400
  else
    let all_artifacts := list_artifacts db artifact_type 1000 0
    let matching :=
      all_artifacts.filter (fun a => re_search_ci_literal query.toList a.name.toList)
    .ok200 (matching.take limit) matching.length

/-- Outcome of `POST /artifact/byRegEx`. -/
inductive RegexOutcome
  | badRequest400
  | notFound404
  | ok200 (results : List ArtifactRec)
deriving DecidableEq

/-- `POST /artifact/byRegEx` (`search_by_regex` in `search.py`): 400 when
the guard rejects, otherwise match name, then non-empty metadata
description, then non-empty metadata readme, over
`list_artifacts(db, limit=1000)`; 404 when nothing matches. -/
def search_by_regex (db : List ArtifactRec) (regex : String) : RegexOutcome :=
  if is_safe_regex regex = false then .badRequest400
  else
    let all_artifacts := list_artifacts db none 1000 0
    let matching :=
      all_artifacts.filter (fun a =>
        re_search_ci_literal regex.toList a.name.toList
        || (a.hasMetadata &&
            ((decide (a.description ≠ "") &&
                re_search_ci_literal regex.toList a.description.toList)
             || (decide (a.readme ≠ "") &&
                re_search_ci_literal regex.toList a.readme.toList))))
    if matching = [] then .notFound404 else .ok200 matching

/-- The result list of a `GET /artifacts/search` outcome. -/
def searchResultsOf : SearchOutcome → List ArtifactRec
  | .badRequest400 => []
  | .ok200 rs _ => rs

/-- The reported total of a `GET /artifacts/search` outcome. -/
def searchTotalOf : SearchOutcome → ℕ
  | .badRequest400 => 0
  | .ok200 _ t => t

/-- The result list of a `POST /artifact/byRegEx` outcome. -/
def regexResultsOf : RegexOutcome → List ArtifactRec
  | .badRequest400 => []
  | .notFound404 => []
  | .ok200 rs => rs

/-- An artifact named BERT-Base. -/
def bertArtifact : ArtifactRec := ⟨"id-1", "BERT-Base", "model", 5, false, "", ""⟩

theorem WEIGHTS_ramp_up_time : WEIGHTS "ramp_up_time" = 12/100 := rfl

theorem WEIGHTS_bus_factor : WEIGHTS "bus_factor" = 12/100 := rfl

theorem WEIGHTS_license : WEIGHTS "license" = 12/100 := rfl

theorem WEIGHTS_performance_claims : WEIGHTS "performance_claims" = 12/100 := rfl

theorem WEIGHTS_dataset_and_code_score : WEIGHTS "dataset_and_code_score" = 10/100 := rfl

theorem WEIGHTS_dataset_quality : WEIGHTS "dataset_quality" = 10/100 := rfl

theorem WEIGHTS_code_quality : WEIGHTS "code_quality" = 10/100 := rfl

theorem WEIGHTS_size_score : WEIGHTS "size_score" = 10/100 := rfl

theorem WEIGHTS_reproducibility : WEIGHTS "reproducibility" = 6/100 := rfl

theorem WEIGHTS_reviewedness : WEIGHTS "reviewedness" = 6/100 := rfl

/-- C1: `compute_net_score` returns, for every metrics document, the
weighted mean described by the specification (weights 0.12/0.12/0.12/0.12/
0.10/0.10/0.10, size-score mean at 0.10 defaulting to 0.5 on an empty
document, reproducibility 0.06, reviewedness 0.06 included in numerator
and denominator only when ≥ 0), rounded to 3 decimals; in particular it is
1.0 when every sub-score and reviewedness are 1.0, and 0.5 when every
sub-score is 0.5 with reviewedness = -1. -/
theorem C1_net_score_weighted_mean :
    (∀ m : MetricsDoc, compute_net_score m = net_score_spec m)
    ∧ compute_net_score allOnesDoc = 1
    ∧ compute_net_score allHalvesDoc = 1/2 := by
  have hgen : ∀ m : MetricsDoc, compute_net_score m = net_score_spec m := by
    intro m
    unfold compute_net_score net_score_spec
    simp only [List.map_cons, List.map_nil, List.sum_cons, List.sum_nil,
      WEIGHTS_ramp_up_time, WEIGHTS_bus_factor, WEIGHTS_license,
      WEIGHTS_performance_claims, WEIGHTS_dataset_and_code_score,
      WEIGHTS_dataset_quality, WEIGHTS_code_quality, WEIGHTS_size_score,
      WEIGHTS_reproducibility, WEIGHTS_reviewedness, ge_iff_le, gt_iff_lt, ne_eq]
    by_cases hvs : m.size_score.getD [] = [] <;>
      by_cases hr : (0:ℚ) ≤ m.reviewedness.getD (-1) <;>
        simp only [hvs, hr, ite_true, ite_false, not_true_eq_false,
          not_false_eq_true]
    all_goals split_ifs with htw
    all_goals first
      | (exact absurd (by norm_num) htw)
      | (congr 1; ring)
  refine ⟨hgen, ?_, ?_⟩
  · rw [hgen]
    norm_num [net_score_spec, allOnesDoc, round3, roundHalfEven,
      List.sum_cons, List.sum_nil, List.length_cons, List.length_nil,
      List.cons_ne_nil, Option.getD_some]
  · rw [hgen]
    norm_num [net_score_spec, allHalvesDoc, round3, roundHalfEven,
      List.sum_cons, List.sum_nil, List.length_cons, List.length_nil,
      List.cons_ne_nil, Option.getD_some]

theorem length_filter_mem_comm (l₁ l₂ : List String) (h₁ : l₁.Nodup) (h₂ : l₂.Nodup) :
    (l₁.filter (fun a => a ∈ l₂)).length = (l₂.filter (fun a => a ∈ l₁)).length := by
  have hperm : List.Perm (l₁.filter (fun a => a ∈ l₂)) (l₂.filter (fun a => a ∈ l₁)) := by
    rw [List.perm_ext_iff_of_nodup (h₁.filter _) (h₂.filter _)]
    intro a
    simp [List.mem_filter, and_comm]
  exact hperm.length_eq

/-- C4: `passes_quality_threshold` returns false exactly when the net
score is below 0.10 (0.10 accepted, 0.09 rejected), and on rejection the
original `/ingest` route answers HTTP 200 with `success=False` and no
rating attached. -/
theorem C4_quality_gate_boundary :
    (∀ m : MetricsDoc, passes_quality_threshold m = true ↔ ¬ m.net_score.getD 0 < 1/10)
    ∧ passes_quality_threshold (docWithNetScore (10/100)) = true
    ∧ passes_quality_threshold (docWithNetScore (9/100)) = false
    ∧ (∀ m : MetricsDoc, passes_quality_threshold m = false →
        ingest_model_quality_gate m = some ⟨200, false, none, none⟩) := by
  refine ⟨fun m => ?_, ?_, ?_, fun m hm => ?_⟩
  · simp only [passes_quality_threshold]
    split_ifs with h <;> simp [h] <;> linarith [h]
  · norm_num [passes_quality_threshold, docWithNetScore]
  · norm_num [passes_quality_threshold, docWithNetScore]
  · unfold ingest_model_quality_gate
    rw [hm]
    rfl

theorem C4_quality_gate_boundary_witness :
    passes_quality_threshold (docWithNetScore (9/100)) = false
    ∧ ingest_model_quality_gate (docWithNetScore (9/100)) = some ⟨200, false, none, none⟩ :=
  ⟨C4_quality_gate_boundary.2.2.1,
   C4_quality_gate_boundary.2.2.2 (docWithNetScore (9/100)) C4_quality_gate_boundary.2.2.1⟩

/-- C5: `compute_treescore` is 0 when the artifact has no parents or no
parent has a rating; otherwise it is the mean of the rated parents' most
recent net scores, rounded to 3 decimals, with unrated parents excluded
from the mean (not counted as 0): parents rated 0.8 and 0.6 give 0.7, and
0.8 with an unrated sibling parent gives 0.8. -/
theorem C5_treescore_mean_of_rated_parents :
    (∀ latest : String → Option ℚ, compute_treescore [] latest = 0)
    ∧ (∀ (parents : List String) (latest : String → Option ℚ),
        parents.filterMap latest = [] → compute_treescore parents latest = 0)
    ∧ (∀ (parents : List String) (latest : String → Option ℚ),
        parents.filterMap latest ≠ [] →
          compute_treescore parents latest =
            round3 ((parents.filterMap latest).sum /
              ((parents.filterMap latest).length : ℚ)))
    ∧ (∀ (parents : List String) (latest : String → Option ℚ) (p : String),
        latest p = none →
          compute_treescore (parents ++ [p]) latest = compute_treescore parents latest)
    ∧ compute_treescore ["A", "B"] exLatestBoth = 7/10
    ∧ compute_treescore ["A", "B"] exLatestOnlyA = 8/10 := by
  refine ⟨fun latest => rfl, fun parents latest h => ?_, fun parents latest h => ?_,
    fun parents latest p hp => ?_, ?_, ?_⟩
  · unfold compute_treescore
    split_ifs with h1
    · rfl
    · simp [h]
  · unfold compute_treescore
    have h1 : parents ≠ [] := by
      intro he
      exact h (by simp [he])
    simp only [h1, if_false, h, ite_false]
  · unfold compute_treescore
    have hfm : (parents ++ [p]).filterMap latest = parents.filterMap latest := by
      simp [List.filterMap_append, hp]
    rcases eq_or_ne parents [] with h1 | h1
    · subst h1
      simp [hp]
    · have h2 : parents ++ [p] ≠ [] := by simp
      simp only [h2, if_false, h1, hfm]
  · have h1 : (["A", "B"].filterMap exLatestBoth) = [8/10, 6/10] := by
      simp [exLatestBoth, List.filterMap_cons]
    simp [compute_treescore, h1]
    norm_num [round3, roundHalfEven]
  · have h1 : (["A", "B"].filterMap exLatestOnlyA) = [8/10] := by
      simp [exLatestOnlyA, List.filterMap_cons]
    simp [compute_treescore, h1]
    norm_num [round3, roundHalfEven]

theorem C5_treescore_mean_of_rated_parents_witness :
    compute_treescore ["C"] exLatestOnlyA = 0
    ∧ compute_treescore (["A"] ++ ["B"]) exLatestOnlyA = compute_treescore ["A"] exLatestOnlyA
    ∧ compute_treescore ["A", "B"] exLatestBoth =
        round3 (((["A", "B"] : List String).filterMap exLatestBoth).sum /
          (((["A", "B"] : List String).filterMap exLatestBoth).length : ℚ)) :=
  ⟨C5_treescore_mean_of_rated_parents.2.1 ["C"] exLatestOnlyA (by simp [exLatestOnlyA]),
   C5_treescore_mean_of_rated_parents.2.2.2.1 ["A"] exLatestOnlyA "B" (by simp [exLatestOnlyA]),
   C5_treescore_mean_of_rated_parents.2.2.1 ["A", "B"] exLatestBoth (by simp [exLatestBoth])⟩

/-- C6: `compute_reproducibility` counts one indicator per config file
present in the manifest plus two when training data or procedure is
declared, and maps 3+ indicators to 1.0, 1-2 to 0.5, 0 to 0.0; for a
duplicate-free manifest this matches the presence-based count of the
specification. -/
theorem C6_reproducibility_tiers :
    (∀ (siblings : List String) (tr : Bool), siblings.Nodup →
        compute_reproducibility siblings tr =
          (if 3 ≤ reproducibility_indicators_spec siblings tr then 1
           else if 1 ≤ reproducibility_indicators_spec siblings tr then 1/2 else 0))
    ∧ compute_reproducibility
        ["config.json", "tokenizer_config.json", "generation_config.json"] false = 1
    ∧ compute_reproducibility ["config.json"] false = 1/2
    ∧ compute_reproducibility [] false = 0
    ∧ compute_reproducibility [] true = 1/2 := by
  refine ⟨fun siblings tr h => ?_, ?_, ?_, ?_, ?_⟩
  · unfold compute_reproducibility reproducibility_indicators_spec
    rw [length_filter_mem_comm siblings config_files h (by decide)]
  · norm_num [compute_reproducibility, config_files, List.filter]
  · norm_num [compute_reproducibility, config_files, List.filter]
  · norm_num [compute_reproducibility, config_files, List.filter]
  · norm_num [compute_reproducibility, config_files, List.filter]

theorem C6_reproducibility_tiers_witness :
    compute_reproducibility ["config.json"] false =
      (if 3 ≤ reproducibility_indicators_spec ["config.json"] false then 1
       else if 1 ≤ reproducibility_indicators_spec ["config.json"] false then 1/2 else 0) :=
  C6_reproducibility_tiers.1 ["config.json"] false (by decide)

/-- C2: in the diamond graph (D with parents B and C, both with parent A),
`get_all_dependencies(D)` returns the list [B, C, A, A]: the visited set
stops A from being expanded twice, but A is still appended once as a
parent of B and once as a parent of C, so A occurs twice in the returned
dependency list, contradicting the claimed exactly-once property. -/
theorem C2_diamond_returns_A_twice :
    get_all_dependencies diamondArts diamondEdges "D" = ["B", "C", "A", "A"]
    ∧ (get_all_dependencies diamondArts diamondEdges "D").count "A" = 2 := by
  exact ⟨by decide, by decide⟩

/-- C3: for every model artifact that exists and every rating row with
exactly the columns declared on the `Rating` ORM model,
`GET /artifact/model/{id}/rate` answers HTTP 500 (the handler reads the
undeclared attributes `reproducibility_latency`, `reviewedness_latency`,
`tree_score_latency`, `size_score_latency`, raising `AttributeError`),
never 200; the 404 branches for a missing artifact or missing rating are
as claimed. -/
theorem C3_model_rating_route_500 :
    (∀ (a : String) (v : String → ℚ),
        get_model_rating_spec (some a) (some (schemaRow v)) = .serverError500)
    ∧ (∀ r, get_model_rating_spec none r = .notFound404)
    ∧ (∀ a, get_model_rating_spec (some a) none = .notFound404) := by
  refine ⟨fun a v => ?_, fun r => rfl, fun a => rfl⟩
  have hrow : ∀ n, (schemaRow v n).isSome = decide (n ∈ ratingColumns) := by
    intro n
    unfold schemaRow
    split_ifs with h <;> simp [h]
  have hfalse :
      (model_rating_attr_reads.all fun n => decide (n ∈ ratingColumns)) = false := by
    decide
  simp only [get_model_rating_spec, hrow, hfalse, Bool.false_eq_true, if_false]

/-- C9: `extract_repo_info` uses `rstrip(".git")`, which removes a
trailing run of the characters '.', 'g', 'i', 't' rather than the ".git"
suffix: the repository name "bert" (which does not end in ".git") comes
back as "ber", contradicting the claim that such names are returned
unchanged; the suffix cases the code's own tests cover still behave. -/
theorem C9_extract_repo_info_rstrip_bug :
    extract_repo_info "https://github.com/google/bert" = some ("google", "ber")
    ∧ extract_repo_info "https://github.com/owner/repo" = some ("owner", "repo")
    ∧ extract_repo_info "https://github.com/owner/repo.git" = some ("owner", "repo")
    ∧ extract_repo_info "git@github.com:owner/repo.git" = some ("owner", "repo") := by
  exact ⟨by decide, by decide, by decide, by decide⟩

/-- C8 counterexample: the claim says an unrecognized license is never
reported compatible, but two identical unrecognized identifiers are:
`check_compatibility("zlib", "zlib")` normalizes both to the unrecognized
string "zlib" (normalize_license falls back to the input itself) and the
identical-strings branch answers compatible. -/
theorem C8_unrecognized_identical_compatible :
    check_compatibility (some "zlib") (some "zlib") = (true, "Licenses match: zlib")
    ∧ license_mappings.lookup "zlib" = none
    ∧ LICENSE_COMPATIBILITY.lookup "zlib" = none := by
  exact ⟨by decide, by decide, by decide⟩

/-- C8 (amended): MIT and Apache-2.0 are compatible in both orders,
GPL-3.0 versus MIT is incompatible, an absent license on either side is
incompatible with an explanatory message, and two different licenses with
an unrecognized side are incompatible with a message; however two
licenses that normalize to the identical string are reported compatible
even when unrecognized. -/
theorem C8_license_compatibility_amended :
    check_compatibility (some "MIT") (some "Apache-2.0") =
      (true, "mit is compatible with apache-2.0")
    ∧ check_compatibility (some "Apache-2.0") (some "MIT") =
      (true, "apache-2.0 is compatible with mit")
    ∧ check_compatibility (some "GPL-3.0") (some "MIT") =
      (false, "gpl-3.0 may not be compatible with mit")
    ∧ check_compatibility (some "MIT") (some "GPL-3.0") =
      (false, "mit may not be compatible with gpl-3.0")
    ∧ (∀ t, check_compatibility none t = (false, "Artifact license unknown"))
    ∧ check_compatibility (some "mit") none = (false, "Target license unknown")
    ∧ check_compatibility (some "") (some "mit") = (false, "Artifact license unknown")
    ∧ check_compatibility (some "zlib") (some "boost") =
      (false, "zlib may not be compatible with boost")
    ∧ check_compatibility (some "mit") (some "zlib") =
      (false, "mit may not be compatible with zlib") := by
  refine ⟨by decide, by decide, by decide, by decide, fun t => rfl, by decide,
    by decide, by decide, by decide⟩

/-- C7: every pattern the ReDoS guard rejects gets HTTP 400 from both
search endpoints before any matching; the guard rejects (a+)+, (a|b)*,
patterns longer than 200 characters, and any repetition bound above 50
such as \x7b1,99999\x7d; the plain pattern bert is accepted and matched
case-insensitively, so BERT-Base matches the query bert. -/
theorem C7_redos_guard_rejects_before_matching :
    (∀ (p : String) (db : List ArtifactRec) (t : Option String) (lim : ℕ),
        is_safe_regex p = false →
          search_artifacts db p t lim = .badRequest400
          ∧ search_by_regex db p = .badRequest400)
    ∧ is_safe_regex "(a+)+" = false
    ∧ is_safe_regex "(a|b)*" = false
    ∧ (∀ p : String, 200 < p.length → is_safe_regex p = false)
    ∧ (∀ p : String, repBoundsUnsafe p.toList = true → is_safe_regex p = false)
    ∧ is_safe_regex "a\x7b1,99999\x7d" = false
    ∧ is_safe_regex "bert" = true
    ∧ search_artifacts [bertArtifact] "bert" none 100 = .ok200 [bertArtifact] 1 := by
  refine ⟨fun p db t lim h => ⟨?_, ?_⟩,
    by decide, by decide, fun p hp => ?_, fun p hr => ?_, by decide, by decide, ?_⟩
  · simp only [search_artifacts, h, if_pos]
  · simp only [search_by_regex, h, if_pos]
  · simp only [is_safe_regex]
    split_ifs <;> first
      | rfl
      | (exact absurd hp (by assumption))
  · simp only [is_safe_regex]
    split_ifs <;> rfl
  · have h : (([bertArtifact] : List ArtifactRec).mergeSort
        (fun a b => decide (b.created_at ≤ a.created_at))) = [bertArtifact] :=
      List.mergeSort_singleton bertArtifact
    simp only [search_artifacts, list_artifacts, h]
    decide

theorem C7_redos_guard_rejects_before_matching_witness :
    search_artifacts [bertArtifact] "(a+)+" none 100 = .badRequest400
    ∧ search_by_regex [bertArtifact] "(a+)+" = .badRequest400
    ∧ is_safe_regex (String.mk (List.replicate 201 'a')) = false
    ∧ is_safe_regex "a\x7b9999\x7d" = false := by
  refine ⟨?_, ?_, ?_, ?_⟩
  · exact (C7_redos_guard_rejects_before_matching.1 "(a+)+" [bertArtifact] none 100
      C7_redos_guard_rejects_before_matching.2.1).1
  · exact (C7_redos_guard_rejects_before_matching.1 "(a+)+" [bertArtifact] none 100
      C7_redos_guard_rejects_before_matching.2.1).2
  · exact C7_redos_guard_rejects_before_matching.2.2.2.1
      (String.mk (List.replicate 201 'a')) (by simp [String.length])
  · exact C7_redos_guard_rejects_before_matching.2.2.2.2.1 "a\x7b9999\x7d" (by decide)

theorem list_artifacts_sorted_aux (l : List ArtifactRec) (lim off : ℕ) :
    List.Pairwise (fun a b => b.created_at ≤ a.created_at)
      (((l.mergeSort (fun a b => decide (b.created_at ≤ a.created_at))).drop off).take lim) := by
  have htrans : ∀ a b c : ArtifactRec,
      (fun a b : ArtifactRec => decide (b.created_at ≤ a.created_at)) a b = true →
      (fun a b : ArtifactRec => decide (b.created_at ≤ a.created_at)) b c = true →
      (fun a b : ArtifactRec => decide (b.created_at ≤ a.created_at)) a c = true := by
    intro a b c hab hbc
    simp only [decide_eq_true_eq] at hab hbc ⊢
    omega
  have htotal : ∀ a b : ArtifactRec,
      ((fun a b : ArtifactRec => decide (b.created_at ≤ a.created_at)) a b
        || (fun a b : ArtifactRec => decide (b.created_at ≤ a.created_at)) b a) = true := by
    intro a b
    simp only [Bool.or_eq_true, decide_eq_true_eq]
    omega
  have hsorted := List.sorted_mergeSort htrans htotal l
  have hsub : List.Sublist
      (((l.mergeSort (fun a b => decide (b.created_at ≤ a.created_at))).drop off).take lim)
      (l.mergeSort (fun a b => decide (b.created_at ≤ a.created_at))) :=
    List.Sublist.trans (List.take_sublist _ _) (List.drop_sublist _ _)
  exact (hsorted.sublist hsub).imp (fun h => of_decide_eq_true h)

/-- C10: both search endpoints evaluate the pattern only against
`list_artifacts(db, limit=1000)` — the newest-first persistence listing
capped at 1000 rows — so every returned artifact lies in that capped list
(an artifact outside the newest 1000 is never returned), the listing is
at most `limit` long and sorted newest-first, and the reported total
counts matches within that capped list only. -/
theorem C10_search_limited_to_newest_1000 :
    (∀ (db : List ArtifactRec) (q : String) (t : Option String) (lim : ℕ),
        searchResultsOf (search_artifacts db q t lim) ⊆ list_artifacts db t 1000 0)
    ∧ (∀ (db : List ArtifactRec) (q : String),
        regexResultsOf (search_by_regex db q) ⊆ list_artifacts db none 1000 0)
    ∧ (∀ (db : List ArtifactRec) (t : Option String) (lim off : ℕ),
        (list_artifacts db t lim off).length ≤ lim)
    ∧ (∀ (db : List ArtifactRec) (t : Option String) (lim off : ℕ),
        List.Pairwise (fun a b => b.created_at ≤ a.created_at)
          (list_artifacts db t lim off))
    ∧ (∀ (db : List ArtifactRec) (q : String) (t : Option String) (lim : ℕ),
        searchTotalOf (search_artifacts db q t lim) =
          if is_safe_regex q = false then 0
          else ((list_artifacts db t 1000 0).filter
              (fun a => re_search_ci_literal q.toList a.name.toList)).length) := by
  refine ⟨fun db q t lim => ?_, fun db q => ?_, fun db t lim off => ?_,
    fun db t lim off => ?_, fun db q t lim => ?_⟩
  · simp only [search_artifacts]
    split_ifs with h
    · simp [searchResultsOf]
    · simp only [searchResultsOf]
      exact fun x hx =>
        (List.filter_sublist _).subset ((List.take_sublist _ _).subset hx)
  · simp only [search_by_regex]
    split_ifs with h h2
    · simp [regexResultsOf]
    · simp [regexResultsOf]
    · simp only [regexResultsOf]
      exact fun x hx => (List.filter_sublist _).subset hx
  · simp only [list_artifacts]
    exact List.length_take_le _ _
  · simp only [list_artifacts]
    exact list_artifacts_sorted_aux _ lim off
  · simp only [search_artifacts]
    split_ifs with h <;> rfl
